import Mathlib

set_option maxRecDepth 10000
set_option autoImplicit false

/-!
Verification of the picam motion-detection script (src/picam/picam.py)
against its natural-language specification.

The script is embedded shallowly:
* `DetectMotion.analyze` (the motion classifier) becomes a pure state
  transformer on a `DetectMotion` record, with the wall clock passed
  explicitly as a rational timestamp.
* The on-disk state touched by `concat_vids` and `convert_video` becomes
  an explicit filesystem map from path to optional byte list.
* The `main` control loop becomes a per-tick step function `tick` on a
  `LoopState`, with the per-tick environment (motion frames, timestamps,
  transcoder exit code) supplied explicitly; exceptions become `Except`.
-/

/-! ## Motion classifier (`DetectMotion`) -/

/-- One per-block motion vector of a motion frame: signed x and y
displacement components (`a['x']`, `a['y']` in the source). -/
structure MVector where
  x : ℤ
  y : ℤ
deriving Repr, DecidableEq

/-- The integer square root capped at 255, given as the number of
positive integers `k ≤ 255` whose square is at most `sq`; this form is
kernel-computable, and `isqrt255_eq` below identifies it with
`min (Nat.sqrt sq) 255`. -/
def isqrt255 (sq : ℕ) : ℕ :=
  (List.range 255).countP (fun k => (k + 1) * (k + 1) ≤ sq)

/-- Magnitude of one vector as computed in `DetectMotion.analyze`:
`np.sqrt(x**2 + y**2).clip(0, 255).astype(np.uint8)`.  The float sqrt of
an exactly-representable small integer, truncated to an unsigned 8-bit
integer after clipping, is the integer square root capped at 255. -/
def magnitude (v : MVector) : ℕ :=
  isqrt255 (v.x * v.x + v.y * v.y).toNat

/-- The counting form of the capped square root agrees with
`min (Nat.sqrt sq) 255`. -/
lemma isqrt255_eq (sq : ℕ) : isqrt255 sq = min (Nat.sqrt sq) 255 := by
  have hgen : ∀ n : ℕ,
      (List.range n).countP (fun k => (k + 1) * (k + 1) ≤ sq) = min (Nat.sqrt sq) n := by
    intro n
    induction n with
    | zero => simp
    | succ m ih =>
      rw [List.range_succ, List.countP_append, ih]
      by_cases h : (m + 1) * (m + 1) ≤ sq
      · have hm : m < Nat.sqrt sq := Nat.le_sqrt.mpr h
        simp [List.countP_cons, h]
        omega
      · have hm : Nat.sqrt sq ≤ m := Nat.not_lt.mp (fun hlt => h (Nat.le_sqrt.mp hlt))
        simp [List.countP_cons, h]
        omega
  exact hgen 255

/-- The classifier state: configuration fields set in `__init__` plus the
mutable fields `motion_detected` and `latest_motion`. -/
structure DetectMotion where
  motion_magnitude : ℕ
  motion_vector_count : ℕ
  motion_timeout : ℚ
  motion_detected : Bool
  latest_motion : ℚ
deriving Repr, DecidableEq

/-- The classifier state right after `__init__` with the default keyword
arguments `motion_timeout=5, motion_magnitude=30, motion_vector_count=20`;
`motion_detected = False` and `latest_motion = 0`. -/
def DetectMotion.init : DetectMotion :=
  { motion_magnitude := 30
    motion_vector_count := 20
    motion_timeout := 5
    motion_detected := false
    latest_motion := 0 }

/-- `(a > self.motion_magnitude).sum()`: the number of vectors of the
frame whose magnitude strictly exceeds the threshold. -/
def countOver (threshold : ℕ) (frame : List MVector) : ℕ :=
  (frame.filter (fun v => threshold < magnitude v)).length

/-- `DetectMotion.analyze`, one frame at a time; `ts` is the value of
`time.time()` read at the top of the method. -/
def analyze (s : DetectMotion) (frame : List MVector) (ts : ℚ) : DetectMotion :=
  if s.motion_vector_count < countOver s.motion_magnitude frame then
    { s with latest_motion := ts, motion_detected := true }
  else if s.motion_detected ∧ s.motion_timeout < ts - s.latest_motion then
    { s with motion_detected := false }
  else
    s

/-- A sequence of `analyze` calls, one per (frame, timestamp) pair, in
arrival order. -/
def runAnalyze (s : DetectMotion) (entries : List (List MVector × ℚ)) : DetectMotion :=
  entries.foldl (fun st e => analyze st e.1 e.2) s

/-- A concrete frame of 21 vectors, each of magnitude 31: with the default
thresholds (30, 20) it triggers motion. -/
def triggerFrame : List MVector :=
  List.replicate 21 { x := 31, y := 0 }

/-- A concrete empty frame: it never triggers motion. -/
def quietFrame : List MVector := []

/-! ### Helper lemmas about `analyze` -/

/-- A frame at or below the vector-count threshold leaves an inactive
classifier completely unchanged. -/
lemma analyze_inactive_noop (s : DetectMotion) (frame : List MVector) (ts : ℚ)
    (hcnt : countOver s.motion_magnitude frame ≤ s.motion_vector_count)
    (hact : s.motion_detected = false) :
    analyze s frame ts = s := by
  unfold analyze
  rw [if_neg (by omega), if_neg (by simp [hact])]

/-- Any run of frames each at or below the vector-count threshold leaves
an inactive classifier completely unchanged. -/
lemma runAnalyze_inactive_noop (s : DetectMotion)
    (entries : List (List MVector × ℚ))
    (hcnt : ∀ e ∈ entries, countOver s.motion_magnitude e.1 ≤ s.motion_vector_count)
    (hact : s.motion_detected = false) :
    runAnalyze s entries = s := by
  induction entries with
  | nil => rfl
  | cons e es ih =>
    have h1 : analyze s e.1 e.2 = s :=
      analyze_inactive_noop s e.1 e.2 (hcnt e (by simp)) hact
    simpa [runAnalyze, h1] using ih (fun e' he' => hcnt e' (by simp [he']))

/-- The initial state with motion active (as after a qualifying frame at
time 0). -/
def activeInit : DetectMotion :=
  { DetectMotion.init with motion_detected := true }

/-- Weakening the head of a `≤`-chain. -/
lemma chain_le_of_le {a b : ℚ} {l : List ℚ}
    (h : List.Chain (· ≤ ·) a l) (hba : b ≤ a) : List.Chain (· ≤ ·) b l := by
  cases l with
  | nil => exact List.Chain.nil
  | cons c cs =>
    rw [List.chain_cons] at h ⊢
    exact ⟨le_trans hba h.1, h.2⟩

/-- While the classifier is active, a run of frames whose (non-decreasing)
timestamps all stay within `motion_timeout` of the current
`latest_motion` keeps it active and never decreases `latest_motion`. -/
lemma runAnalyze_active_within_window (entries : List (List MVector × ℚ)) :
    ∀ s : DetectMotion, s.motion_detected = true →
      List.Chain (· ≤ ·) s.latest_motion (entries.map Prod.snd) →
      (∀ e ∈ entries, e.2 ≤ s.latest_motion + s.motion_timeout) →
      (runAnalyze s entries).motion_detected = true ∧
        s.latest_motion ≤ (runAnalyze s entries).latest_motion := by
  induction entries with
  | nil => exact fun s hact _ _ => ⟨hact, le_refl _⟩
  | cons e es ih =>
    intro s hact hchain hwin
    rw [List.map_cons, List.chain_cons] at hchain
    have hle : s.latest_motion ≤ e.2 := hchain.1
    have hwine : e.2 ≤ s.latest_motion + s.motion_timeout := hwin e (by simp)
    by_cases htrig : s.motion_vector_count < countOver s.motion_magnitude e.1
    · have hstep : analyze s e.1 e.2 =
          { s with motion_detected := true, latest_motion := e.2 } := by
        unfold analyze; rw [if_pos htrig]
      have h := ih { s with motion_detected := true, latest_motion := e.2 }
        rfl hchain.2
        (fun e' he' => le_trans (hwin e' (by simp [he'])) (by simp; linarith))
      refine ⟨?_, ?_⟩
      · show (runAnalyze (analyze s e.1 e.2) es).motion_detected = true
        rw [hstep]; exact h.1
      · show s.latest_motion ≤ (runAnalyze (analyze s e.1 e.2) es).latest_motion
        rw [hstep]; exact le_trans hle h.2
    · have hstep : analyze s e.1 e.2 = s := by
        unfold analyze
        rw [if_neg htrig, if_neg]
        intro hcl
        exact absurd hcl.2 (by linarith)
      have h := ih s hact (chain_le_of_le hchain.2 hle) (fun e' he' => hwin e' (by simp [he']))
      exact ⟨by show (runAnalyze (analyze s e.1 e.2) es).motion_detected = true;
                rw [hstep]; exact h.1,
             by show s.latest_motion ≤ (runAnalyze (analyze s e.1 e.2) es).latest_motion;
                rw [hstep]; exact h.2⟩

/-! ## Claims C1, C3, C10 about the classifier's single-step behavior -/

/-- C1: when the count of vectors with magnitude strictly above
`motion_magnitude` strictly exceeds `motion_vector_count`, `analyze` sets
`active = true` and `last_motion_timestamp = now` regardless of the prior
state; the defaults are magnitude 30 and vector count 20 (and the
magnitude of each vector is `sqrt(x^2+y^2)` clipped to 255 and quantized
to 8-bit unsigned, as in the definition of `magnitude`). -/
theorem analyze_trigger_sets_state (s : DetectMotion) (frame : List MVector) (ts : ℚ)
    (htrig : s.motion_vector_count < countOver s.motion_magnitude frame) :
    analyze s frame ts = { s with motion_detected := true, latest_motion := ts } ∧
      DetectMotion.init.motion_magnitude = 30 ∧
      DetectMotion.init.motion_vector_count = 20 ∧
      (∀ v : MVector, magnitude v ≤ 255) := by
  refine ⟨?_, rfl, rfl, fun v => by unfold magnitude; rw [isqrt255_eq]; omega⟩
  unfold analyze
  rw [if_pos htrig]

/-- Witness for C1: a frame of 21 vectors of magnitude 31 triggers from
the freshly initialized state at time 7. -/
theorem analyze_trigger_sets_state_witness :
    analyze DetectMotion.init triggerFrame 7 =
      { DetectMotion.init with motion_detected := true, latest_motion := 7 } :=
  (analyze_trigger_sets_state DetectMotion.init triggerFrame 7 (by decide)).1

/-- C3: a frame whose over-threshold vector count is at most
`motion_vector_count` (in particular exactly equal, the comparison being
strict) leaves an inactive classifier inactive — in fact unchanged. -/
theorem analyze_below_threshold_stays_inactive (s : DetectMotion)
    (frame : List MVector) (ts : ℚ)
    (hcnt : countOver s.motion_magnitude frame ≤ s.motion_vector_count)
    (hact : s.motion_detected = false) :
    (analyze s frame ts).motion_detected = false ∧ analyze s frame ts = s := by
  have h := analyze_inactive_noop s frame ts hcnt hact
  exact ⟨by rw [h, hact], h⟩

/-- Witness for C3: a frame with exactly 20 over-threshold vectors (the
default `motion_vector_count`) does not trigger from the initial state. -/
theorem analyze_below_threshold_stays_inactive_witness :
    (analyze DetectMotion.init (List.replicate 20 { x := 31, y := 0 }) 9).motion_detected
      = false :=
  (analyze_below_threshold_stays_inactive DetectMotion.init
    (List.replicate 20 { x := 31, y := 0 }) 9 (by decide) rfl).1

/-- C10: on any frame that does not meet the trigger condition,
`analyze` leaves `latest_motion` unchanged — including on the step that
clears `motion_detected` to false. -/
theorem analyze_no_trigger_preserves_timestamp (s : DetectMotion)
    (frame : List MVector) (ts : ℚ)
    (hcnt : countOver s.motion_magnitude frame ≤ s.motion_vector_count) :
    (analyze s frame ts).latest_motion = s.latest_motion := by
  unfold analyze
  rw [if_neg (by omega)]
  split <;> rfl

/-- C2: hysteresis.  `analyze` transitions `active` to false only when
`active` is currently true and `now - last_motion_timestamp` strictly
exceeds `motion_timeout`; `last_motion_timestamp` is non-decreasing while
active (under a non-decreasing clock); and once active, the classifier
stays active through any run of frames whose timestamps remain within
`motion_timeout` of the last qualifying frame, even if none of them
qualifies. -/
theorem motion_hysteresis (s : DetectMotion) (frame : List MVector) (ts : ℚ)
    (entries : List (List MVector × ℚ)) :
    (s.motion_detected = true → (analyze s frame ts).motion_detected = false →
      s.motion_timeout < ts - s.latest_motion) ∧
    (s.motion_detected = true → s.latest_motion ≤ ts →
      s.latest_motion ≤ (analyze s frame ts).latest_motion) ∧
    (s.motion_detected = true →
      List.Chain (· ≤ ·) s.latest_motion (entries.map Prod.snd) →
      (∀ e ∈ entries, e.2 ≤ s.latest_motion + s.motion_timeout) →
      (runAnalyze s entries).motion_detected = true ∧
        s.latest_motion ≤ (runAnalyze s entries).latest_motion) := by
  refine ⟨?_, ?_, runAnalyze_active_within_window entries s⟩
  · intro hact hcleared
    unfold analyze at hcleared
    by_cases htrig : s.motion_vector_count < countOver s.motion_magnitude frame
    · rw [if_pos htrig] at hcleared
      exact absurd hcleared (by simp)
    · rw [if_neg htrig] at hcleared
      by_cases hcl : s.motion_detected ∧ s.motion_timeout < ts - s.latest_motion
      · exact hcl.2
      · rw [if_neg hcl] at hcleared
        rw [hact] at hcleared
        exact absurd hcleared (by simp)
  · intro _ hts
    unfold analyze
    by_cases htrig : s.motion_vector_count < countOver s.motion_magnitude frame
    · rw [if_pos htrig]
      exact hts
    · rw [if_neg htrig]
      split <;> exact le_refl _

/-- Witness for C2: from an active state with `latest_motion = 0` and the
default 5-second timeout, a clearing step at time 100 witnesses the
timeout bound, and two quiet frames at times 2 and 4 leave the classifier
active with a non-decreased timestamp. -/
theorem motion_hysteresis_witness :
    activeInit.motion_timeout < 100 - activeInit.latest_motion ∧
      activeInit.latest_motion ≤ (analyze activeInit quietFrame 3).latest_motion ∧
      (runAnalyze activeInit [(quietFrame, 2), (quietFrame, 4)]).motion_detected
        = true := by
  have h1 := (motion_hysteresis activeInit quietFrame 100 []).1 rfl
    (by norm_num [analyze, countOver, quietFrame, activeInit, DetectMotion.init])
  have h2 := (motion_hysteresis activeInit quietFrame 3 []).2.1 rfl
    (by norm_num [activeInit, DetectMotion.init])
  have h3 := (motion_hysteresis activeInit quietFrame 0
      [(quietFrame, 2), (quietFrame, 4)]).2.2 rfl
    (by norm_num [activeInit, DetectMotion.init, List.chain_cons])
    (by intro e he
        rcases List.mem_cons.mp he with h | h
        · rw [h]; norm_num [activeInit, DetectMotion.init]
        · rcases List.mem_cons.mp h with h' | h'
          · rw [h']; norm_num [activeInit, DetectMotion.init]
          · exact absurd h' (List.not_mem_nil _))
  exact ⟨h1, h2, h3.1⟩

/-- Witness for C10: a quiet frame at time 100 clears an active classifier
whose last motion was at time 2 (timeout 5) without touching
`latest_motion`. -/
theorem analyze_no_trigger_preserves_timestamp_witness :
    (analyze { DetectMotion.init with motion_detected := true, latest_motion := 2 }
        quietFrame 100).latest_motion = 2 :=
  analyze_no_trigger_preserves_timestamp
    { DetectMotion.init with motion_detected := true, latest_motion := 2 }
    quietFrame 100 (by decide)

/-! ## Filesystem model, `concat_vids` and `convert_video` -/

/-- The on-disk state: a map from path to the byte content of the file at
that path, `none` when no such file exists. -/
def FS : Type := String → Option (List ℕ)

/-- Create, overwrite or (with `none`) delete the file at `p`. -/
def setFile (fs : FS) (p : String) (c : Option (List ℕ)) : FS :=
  fun q => if q = p then c else fs q

/-- The fixed name of the in-progress after-segment file. -/
def afterFile : String := "after.h264"

/-- Python-level failures that can escape the functions of the script:
`FileNotFoundError` from opening a missing file for reading, and the
unbound-local `NameError` of `main`'s `ts` variable. -/
inductive PyError where
  | fileNotFound
  | nameError
deriving Repr, DecidableEq

/-- `concat_vids(ts)`: open `<ts>.h264` in append mode (creating it when
absent, as `'ab'` does), read all of `after.h264` (raising if it is
missing), append those bytes, and delete `after.h264`. -/
def concat_vids (fs : FS) (ts : String) : Except PyError FS :=
  let pre := (fs (ts ++ ".h264")).getD []
  let fs1 := setFile fs (ts ++ ".h264") (some pre)
  match fs1 afterFile with
  | none => Except.error PyError.fileNotFound
  | some post =>
      Except.ok (setFile (setFile fs1 (ts ++ ".h264") (some (pre ++ post))) afterFile none)

/-- The external transcoder invocation
`/usr/bin/avconv -i <ts>.h264 -acodec copy -vcodec copy <ts>.mp4`,
modelled per the spec's external-interface contract: success means zero
exit code and a fully written output; the tool cannot succeed when its
input file is missing; on failure nothing is written.  The exit code `rc`
of a run with an existing input is an environment input. -/
def runTranscoder (fs : FS) (infile outfile : String) (rc : ℕ) : ℕ × FS :=
  match fs infile with
  | none => (1, fs)
  | some content => if rc = 0 then (0, setFile fs outfile (some content)) else (rc, fs)

/-- `convert_video(ts)`: run the external transcoder with
`stderr=DEVNULL` and no exception on non-zero exit (`subprocess.run`
without `check`), then delete the source exactly when the exit code was
zero. -/
def convert_video (fs : FS) (ts : String) (rc : ℕ) : FS :=
  let res := runTranscoder fs (ts ++ ".h264") (ts ++ ".mp4") rc
  if res.1 = 0 then setFile res.2 (ts ++ ".h264") none else res.2

/-- A demonstration filesystem: a two-byte pre-roll file `t.h264` and a
one-byte after-segment `after.h264`. -/
def demoFS : FS :=
  fun p => if p = "t.h264" then some [1, 2]
    else if p = "after.h264" then some [3] else none

/-- The demonstration episode timestamp string. -/
def demoTs : String := "t"

/-- A demonstration filesystem holding only the merged episode file
`t.h264`. -/
def demoMergedFS : FS :=
  fun p => if p = "t.h264" then some [7, 8] else none

/-! ## The `main` control loop -/

/-- `'{:03d}'`-style zero-padding of the still-image counter. -/
def pad3 (n : ℕ) : String :=
  if n < 10 then "00" ++ toString n
  else if n < 100 then "0" ++ toString n
  else toString n

/-- One name produced by the `gen_img_name` generator:
`'{:%Y-%m-%d-%H%M%S}-{:03d}.jpg'.format(now, counter)`, with the
formatted wall-clock time passed in as a string. -/
def gen_img_name (t : String) (counter : ℕ) : String :=
  t ++ "-" ++ pad3 counter ++ ".jpg"

/-- One iteration of the inner `while output.motion_detected` loop:
the formatted capture time of the still taken at its start, and the
motion frames analyzed during the subsequent
`camera.wait_recording(still_img_interval)`. -/
structure StillRound where
  imgTime : String
  frames : List (List MVector × ℚ)

/-- The inner `while output.motion_detected:` loop of `main`: while
motion is detected, capture one still (advancing the process-lifetime
generator counter by one) and absorb the round's motion frames; returns
the final classifier state, counter value and captured names in order. -/
def innerLoop : DetectMotion → ℕ → List StillRound → DetectMotion × ℕ × List String
  | s, c, [] => (s, c, [])
  | s, c, r :: rs =>
    if s.motion_detected then
      let step := innerLoop (runAnalyze s r.frames) (c + 1) rs
      (step.1, step.2.1, gen_img_name r.imgTime (c + 1) :: step.2.2)
    else (s, c, [])

/-- The configuration of `main` that the loop branches on:
`convert_vids` is falsy (`none`) or the quiet threshold in seconds. -/
structure Config where
  convert_vids : Option ℚ

/-- The state carried across iterations of the `while True` loop: the
classifier, the `ts` local of `main` (`none` while still unassigned), the
`gen_img_name` counter, the filesystem, and all still names captured so
far. -/
structure LoopState where
  motion : DetectMotion
  ts : Option String
  imgCounter : ℕ
  fs : FS
  stills : List String

/-- The per-tick environment: motion frames arriving during
`wait_recording(1)`, the formatted episode timestamp, the circular-buffer
bytes flushed by `write_video`, the after-segment bytes (`none` models a
failed segment write, leaving `after.h264` missing at assembly time), the
inner-loop rounds, the value of `time.time()` at the quiet check, and the
transcoder exit code. -/
structure TickEnv where
  preFrames : List (List MVector × ℚ)
  epTs : String
  preRollData : List ℕ
  afterData : Option (List ℕ)
  rounds : List StillRound
  now : ℚ
  rc : ℕ

/-- Whether a tick takes the episode branch: the value of
`output.motion_detected` at the `if` of `main`'s loop. -/
def opensEpisode (st : LoopState) (env : TickEnv) : Bool :=
  (runAnalyze st.motion env.preFrames).motion_detected

/-- One iteration of `main`'s `while True` loop.  On the episode branch:
split recording to `after.h264`, flush the circular buffer to
`<ts>.h264`, run the inner still-capture loop, then merge with
`concat_vids` (whose `FileNotFoundError` propagates).  Otherwise, when
`convert_vids` is enabled and the quiet window has elapsed, call
`convert_video(ts)` — raising `NameError` when the `ts` local was never
assigned. -/
def tick (cfg : Config) (st : LoopState) (env : TickEnv) : Except PyError LoopState :=
  let m1 := runAnalyze st.motion env.preFrames
  if m1.motion_detected then
    let fs1 := match env.afterData with
      | some d => setFile st.fs afterFile (some d)
      | none => st.fs
    let fs2 := setFile fs1 (env.epTs ++ ".h264") (some env.preRollData)
    let step := innerLoop m1 st.imgCounter env.rounds
    match concat_vids fs2 env.epTs with
    | Except.error e => Except.error e
    | Except.ok fs3 =>
        Except.ok { motion := step.1, ts := some env.epTs, imgCounter := step.2.1,
                    fs := fs3, stills := st.stills ++ step.2.2 }
  else
    match cfg.convert_vids with
    | some quiet =>
        if quiet < env.now - m1.latest_motion then
          match st.ts with
          | none => Except.error PyError.nameError
          | some t =>
              Except.ok { st with motion := m1, fs := convert_video st.fs t env.rc }
        else Except.ok { st with motion := m1 }
    | none => Except.ok { st with motion := m1 }

/-- The `while True` loop across a sequence of tick environments.  The
surrounding `try` catches only `KeyboardInterrupt`, so the first error of
any tick ends the run: no later tick executes. -/
def runLoop (cfg : Config) : LoopState → List TickEnv → Except PyError LoopState
  | st, [] => Except.ok st
  | st, env :: envs =>
    match tick cfg st env with
    | Except.error e => Except.error e
    | Except.ok st' => runLoop cfg st' envs

/-- The classifier state on entry to the main loop: lines 121–123 of
`main` let the classifier run for the 2-second warm-up window and then
force `output.motion_detected = False`. -/
def startupMotion (s : DetectMotion) (warmup : List (List MVector × ℚ)) : DetectMotion :=
  { runAnalyze s warmup with motion_detected := false }

/-- The empty filesystem. -/
def emptyFS : FS := fun _ => none

/-- The loop state at the first iteration of a fresh process with no
warm-up frames. -/
def loopStart : LoopState :=
  { motion := startupMotion DetectMotion.init []
    ts := none
    imgCounter := 0
    fs := emptyFS
    stills := [] }

/-! ### Helper lemmas and demonstration data for the loop -/

/-- The concrete trigger frame has 21 vectors over the default magnitude
threshold. -/
lemma countOver_trigger : countOver 30 triggerFrame = 21 := by decide

/-- `analyze` on the concrete trigger frame from any state with the
default thresholds. -/
lemma analyze_triggerFrame (s : DetectMotion) (ts : ℚ)
    (hmag : s.motion_magnitude = 30) (hcnt : s.motion_vector_count = 20) :
    analyze s triggerFrame ts = { s with motion_detected := true, latest_motion := ts } := by
  unfold analyze
  rw [if_pos (by rw [hmag, hcnt, countOver_trigger]; omega)]

/-- `analyze` on the empty frame clears an active state whose timeout has
expired. -/
lemma analyze_quiet_clears (s : DetectMotion) (ts : ℚ)
    (hact : s.motion_detected = true) (hto : s.motion_timeout < ts - s.latest_motion) :
    analyze s quietFrame ts = { s with motion_detected := false } := by
  unfold analyze
  rw [if_neg (by simp [countOver, quietFrame]), if_pos ⟨hact, hto⟩]

/-- The inner loop's final counter is its initial counter plus the number
of stills it captured. -/
lemma innerLoop_counter (rs : List StillRound) :
    ∀ s c, (innerLoop s c rs).2.1 = c + ((innerLoop s c rs).2.2).length := by
  induction rs with
  | nil => intro s c; rfl
  | cons r rs ih =>
    intro s c
    by_cases h : s.motion_detected = true
    · simp only [innerLoop, h, if_true, List.length_cons]
      rw [ih]
      omega
    · simp [innerLoop, h]

/-- A tick environment with no motion frames and a late quiet-check
clock. -/
def quietTickEnv : TickEnv :=
  { preFrames := []
    epTs := "x"
    preRollData := []
    afterData := none
    rounds := []
    now := 100
    rc := 0 }

/-- A tick environment whose frames trigger an episode but whose
after-segment write failed, so `after.h264` is missing at assembly. -/
def badEpisodeEnv : TickEnv :=
  { preFrames := [(triggerFrame, 10)]
    epTs := "2026-01-01-000000"
    preRollData := [0]
    afterData := none
    rounds := []
    now := 0
    rc := 0 }

/-- A configuration with auto-conversion disabled (`convert_vids=False`,
the default). -/
def cfgOff : Config := { convert_vids := none }

/-- A configuration with auto-conversion after 30 quiet seconds. -/
def cfgConvert : Config := { convert_vids := some 30 }

/-! ## Claim C9: startup warm-up reset -/

/-- C9: after the warm-up window the controller forces
`motion_detected = false`, whatever frames arrived during warm-up; hence
a tick whose own frames stay at or below threshold does not open an
episode, and a tick that does not open an episode leaves `ts`, the still
counter and the captured stills untouched. -/
theorem startup_reset_no_spurious_episode (s : DetectMotion)
    (warmup : List (List MVector × ℚ)) :
    (startupMotion s warmup).motion_detected = false ∧
    (∀ st env, st.motion = startupMotion s warmup →
      (∀ e ∈ env.preFrames,
        countOver st.motion.motion_magnitude e.1 ≤ st.motion.motion_vector_count) →
      opensEpisode st env = false) ∧
    (∀ cfg st env st', opensEpisode st env = false →
      tick cfg st env = Except.ok st' →
      st'.ts = st.ts ∧ st'.imgCounter = st.imgCounter ∧ st'.stills = st.stills) := by
  refine ⟨rfl, ?_, ?_⟩
  · intro st env hmot hframes
    have hact : st.motion.motion_detected = false := by rw [hmot]; rfl
    unfold opensEpisode
    rw [runAnalyze_inactive_noop st.motion env.preFrames hframes hact]
    exact hact
  · intro cfg st env st' hopen htick
    unfold opensEpisode at hopen
    simp only [tick, hopen, Bool.false_eq_true, if_false] at htick
    split at htick
    · split at htick
      · split at htick
        · exact absurd htick (by simp)
        · cases htick; exact ⟨rfl, rfl, rfl⟩
      · cases htick; exact ⟨rfl, rfl, rfl⟩
    · cases htick; exact ⟨rfl, rfl, rfl⟩

/-- Witness for C9: a trigger frame arriving during the warm-up window is
discarded by the reset, and the following quiet tick does not open an
episode. -/
theorem startup_reset_no_spurious_episode_witness :
    (startupMotion DetectMotion.init [(triggerFrame, 1)]).motion_detected = false ∧
    opensEpisode { motion := startupMotion DetectMotion.init [(triggerFrame, 1)],
                   ts := none, imgCounter := 0, fs := emptyFS, stills := [] }
      quietTickEnv = false := by
  have h := startup_reset_no_spurious_episode DetectMotion.init [(triggerFrame, 1)]
  refine ⟨h.1, h.2.1 _ quietTickEnv rfl ?_⟩
  intro e he
  exact absurd he (by simp [quietTickEnv])

/-! ## Claim C4: error propagation out of the control loop -/

/-- C4 (amended): the first error raised in any tick — for example a
missing after-segment at assembly time — ends the whole run: no later
tick executes, because the `try` around the loop catches only
`KeyboardInterrupt`. -/
theorem tick_error_aborts_runLoop (cfg : Config) (st : LoopState) (env : TickEnv)
    (envs : List TickEnv) (e : PyError)
    (h : tick cfg st env = Except.error e) :
    runLoop cfg st (env :: envs) = Except.error e := by
  unfold runLoop
  rw [h]

/-- Witness for C4 (amended): a concrete run consisting of one failing
episode tick ends in `FileNotFoundError`. -/
theorem tick_error_aborts_runLoop_witness :
    runLoop cfgOff loopStart [badEpisodeEnv] = Except.error PyError.fileNotFound :=
  tick_error_aborts_runLoop cfgOff loopStart badEpisodeEnv [] PyError.fileNotFound rfl

/-- Counterexample to C4 as stated: an I/O error while assembling the
first episode (missing `after.h264`) aborts the whole run — the second
tick is never reached, instead of the loop continuing to the next tick. -/
theorem loop_error_aborts_cex :
    runLoop cfgOff loopStart [badEpisodeEnv, quietTickEnv]
      = Except.error PyError.fileNotFound := rfl

/-! ## Claim C7: the quiet-period auto-convert check -/

/-- C7: at the quiet-period auto-convert check of a fresh process —
no motion since start, `convert_vids` enabled, quiet window elapsed —
`main` evaluates `convert_video(ts)` with the `ts` local never assigned
and raises `NameError`, instead of the claimed no-op; the other half of
the claim does hold: `convert_video` on a path that does not exist is a
no-op and not an error. -/
theorem convert_check_unbound_ts :
    tick cfgConvert loopStart quietTickEnv = Except.error PyError.nameError ∧
    convert_video emptyFS demoTs 1 = emptyFS := by
  constructor
  · have hm : runAnalyze loopStart.motion quietTickEnv.preFrames = DetectMotion.init := rfl
    simp only [tick, hm]
    norm_num [cfgConvert, quietTickEnv, loopStart, DetectMotion.init]
  · rfl

/-! ## Claim C8: still-image naming and the episode counter -/

/-- The classifier just after the trigger frame of the first episode. -/
def mE1 : DetectMotion :=
  { DetectMotion.init with motion_detected := true, latest_motion := 10 }

/-- The classifier after the first episode's timeout clears it. -/
def mE1c : DetectMotion := { DetectMotion.init with latest_motion := 10 }

/-- The classifier just after the trigger frame of the second episode. -/
def mE2 : DetectMotion :=
  { DetectMotion.init with motion_detected := true, latest_motion := 200 }

/-- The classifier after the second episode's timeout clears it. -/
def mE2c : DetectMotion := { DetectMotion.init with latest_motion := 200 }

/-- First still round of episode one: no frames arrive during the wait. -/
def roundA1 : StillRound := { imgTime := "A", frames := [] }

/-- Second still round of episode one: a quiet frame at time 100 lets the
5-second timeout clear the motion state. -/
def roundA2 : StillRound := { imgTime := "A", frames := [(quietFrame, 100)] }

/-- The single still round of episode two, cleared by a quiet frame at
time 300. -/
def roundB : StillRound := { imgTime := "B", frames := [(quietFrame, 300)] }

/-- Episode timestamp of the first demonstration episode. -/
def preEp1 : String := "E1"

/-- Episode timestamp of the second demonstration episode. -/
def preEp2 : String := "E2"

/-- The tick environment of the first demonstration episode. -/
def episodeEnv1 : TickEnv :=
  { preFrames := [(triggerFrame, 10)]
    epTs := preEp1
    preRollData := [0]
    afterData := some [1]
    rounds := [roundA1, roundA2]
    now := 0
    rc := 0 }

/-- The tick environment of the second demonstration episode. -/
def episodeEnv2 : TickEnv :=
  { preFrames := [(triggerFrame, 200)]
    epTs := preEp2
    preRollData := [2]
    afterData := some [3]
    rounds := [roundB]
    now := 0
    rc := 0 }

/-- The filesystem of episode one just before assembly. -/
def fsPreEp1 : FS :=
  setFile (setFile emptyFS afterFile (some [1])) (preEp1 ++ ".h264") (some [0])

/-- The filesystem after episode one's assembly. -/
def fsAfterEp1 : FS :=
  setFile (setFile (setFile fsPreEp1 (preEp1 ++ ".h264") (some [0]))
    (preEp1 ++ ".h264") (some ([0] ++ [1]))) afterFile none

/-- The filesystem of episode two just before assembly. -/
def fsPreEp2 : FS :=
  setFile (setFile fsAfterEp1 afterFile (some [3])) (preEp2 ++ ".h264") (some [2])

/-- The filesystem after episode two's assembly. -/
def fsAfterEp2 : FS :=
  setFile (setFile (setFile fsPreEp2 (preEp2 ++ ".h264") (some [2]))
    (preEp2 ++ ".h264") (some ([2] ++ [3]))) afterFile none

/-- The loop state after the first demonstration episode. -/
def stB : LoopState :=
  { motion := mE1c
    ts := some preEp1
    imgCounter := 2
    fs := fsAfterEp1
    stills := [gen_img_name ("A") 1, gen_img_name ("A") 2] }

/-- The loop state after the second demonstration episode. -/
def stC : LoopState :=
  { motion := mE2c
    ts := some preEp2
    imgCounter := 3
    fs := fsAfterEp2
    stills := [gen_img_name ("A") 1, gen_img_name ("A") 2, gen_img_name ("B") 3] }

/-- A single still round whose wait sees no frames. -/
def demoRound : StillRound := { imgTime := "B", frames := [] }

/-- C8 (amended): still names are `<time>-<counter:03d>.jpg` where the
counter is the process-lifetime `gen_img_name` counter: when the inner
loop of an episode starts with counter value `c`, its first still carries
`c + 1` (not 1); the counter advances by exactly the number of stills
captured; and no tick ever decreases it. -/
theorem still_counter_monotone :
    (∀ (s : DetectMotion) (c : ℕ) (r : StillRound) (rs : List StillRound),
      s.motion_detected = true →
      ((innerLoop s c (r :: rs)).2.2).head? = some (gen_img_name r.imgTime (c + 1))) ∧
    (∀ (s : DetectMotion) (c : ℕ) (rs : List StillRound),
      (innerLoop s c rs).2.1 = c + ((innerLoop s c rs).2.2).length) ∧
    (∀ (cfg : Config) (st : LoopState) (env : TickEnv) (st' : LoopState),
      tick cfg st env = Except.ok st' → st.imgCounter ≤ st'.imgCounter) := by
  refine ⟨?_, fun s c rs => innerLoop_counter rs s c, ?_⟩
  · intro s c r rs h
    simp [innerLoop, h]
  · intro cfg st env st' htick
    simp only [tick] at htick
    split at htick
    · split at htick
      · exact absurd htick (by simp)
      · cases htick
        simp only [innerLoop_counter]
        exact Nat.le_add_right _ _
    · split at htick
      · split at htick
        · split at htick
          · exact absurd htick (by simp)
          · cases htick; exact Nat.le_refl _
        · cases htick; exact Nat.le_refl _
      · cases htick; exact Nat.le_refl _

/-- Witness for C8 (amended): an episode entered with counter value 2
names its first still with 3; the counter-length identity and tick
monotonicity at concrete inputs. -/
theorem still_counter_monotone_witness :
    ((innerLoop activeInit 2 [demoRound]).2.2).head?
      = some (gen_img_name demoRound.imgTime 3) ∧
    (innerLoop DetectMotion.init 5 [demoRound]).2.1
      = 5 + ((innerLoop DetectMotion.init 5 [demoRound]).2.2).length ∧
    loopStart.imgCounter
      ≤ ({ loopStart with motion := DetectMotion.init } : LoopState).imgCounter :=
  ⟨still_counter_monotone.1 activeInit 2 demoRound [] rfl,
   still_counter_monotone.2.1 DetectMotion.init 5 [demoRound],
   still_counter_monotone.2.2 cfgOff loopStart quietTickEnv _ rfl⟩

/-- Counterexample to C8 as stated: across two complete episodes the
generator counter never resets — the stills are `A-001.jpg`, `A-002.jpg`
and then `B-003.jpg`, so the first still of the second episode carries
counter value 3, not 1. -/
theorem still_counter_resets_cex :
    (runLoop cfgOff loopStart [episodeEnv1, episodeEnv2]).map LoopState.stills
      = Except.ok [gen_img_name ("A") 1, gen_img_name ("A") 2, gen_img_name ("B") 3] ∧
    gen_img_name ("B") 3 ≠ gen_img_name ("B") 1 := by
  have hC1 : analyze mE1 quietFrame 100 = { mE1 with motion_detected := false } :=
    analyze_quiet_clears mE1 100 rfl (by norm_num [mE1, DetectMotion.init])
  have hC2 : analyze mE2 quietFrame 300 = { mE2 with motion_detected := false } :=
    analyze_quiet_clears mE2 300 rfl (by norm_num [mE2, DetectMotion.init])
  have hIL1 : innerLoop mE1 0 [roundA1, roundA2]
      = (mE1c, 2, [gen_img_name ("A") 1, gen_img_name ("A") 2]) := by
    have e1 : innerLoop mE1 0 [roundA1, roundA2]
        = ((innerLoop (analyze mE1 quietFrame 100) 2 []).1,
           (innerLoop (analyze mE1 quietFrame 100) 2 []).2.1,
           gen_img_name ("A") 1 :: gen_img_name ("A") 2
             :: (innerLoop (analyze mE1 quietFrame 100) 2 []).2.2) := rfl
    rw [hC1] at e1
    exact e1
  have hIL2 : innerLoop mE2 2 [roundB] = (mE2c, 3, [gen_img_name ("B") 3]) := by
    have e2 : innerLoop mE2 2 [roundB]
        = ((innerLoop (analyze mE2 quietFrame 300) 3 []).1,
           (innerLoop (analyze mE2 quietFrame 300) 3 []).2.1,
           gen_img_name ("B") 3 :: (innerLoop (analyze mE2 quietFrame 300) 3 []).2.2) := rfl
    rw [hC2] at e2
    exact e2
  have htick1 : tick cfgOff loopStart episodeEnv1 = Except.ok stB := by
    have e3 : tick cfgOff loopStart episodeEnv1
        = Except.ok { motion := (innerLoop mE1 0 [roundA1, roundA2]).1,
                      ts := some preEp1,
                      imgCounter := (innerLoop mE1 0 [roundA1, roundA2]).2.1,
                      fs := fsAfterEp1,
                      stills := (innerLoop mE1 0 [roundA1, roundA2]).2.2 } := rfl
    rw [hIL1] at e3
    exact e3
  have htick2 : tick cfgOff stB episodeEnv2 = Except.ok stC := by
    have e4 : tick cfgOff stB episodeEnv2
        = Except.ok { motion := (innerLoop mE2 2 [roundB]).1,
                      ts := some preEp2,
                      imgCounter := (innerLoop mE2 2 [roundB]).2.1,
                      fs := fsAfterEp2,
                      stills := [gen_img_name ("A") 1, gen_img_name ("A") 2]
                        ++ (innerLoop mE2 2 [roundB]).2.2 } := rfl
    rw [hIL2] at e4
    exact e4
  have hrun : runLoop cfgOff loopStart [episodeEnv1, episodeEnv2] = Except.ok stC := by
    have e5 : runLoop cfgOff loopStart [episodeEnv1, episodeEnv2]
        = match tick cfgOff loopStart episodeEnv1 with
          | Except.error e => Except.error e
          | Except.ok st' => runLoop cfgOff st' [episodeEnv2] := rfl
    rw [htick1] at e5
    have e6 : runLoop cfgOff stB [episodeEnv2]
        = match tick cfgOff stB episodeEnv2 with
          | Except.error e => Except.error e
          | Except.ok st' => runLoop cfgOff st' [] := rfl
    rw [htick2] at e6
    exact e5.trans e6
  constructor
  · rw [hrun]
    rfl
  · decide

/-- C5: when both source files exist, `concat_vids` appends the bytes of
the after-segment to the end of the pre-roll file — the merged file's
byte length is the pre-roll's prior length plus the after-segment's
length — and the after-segment file no longer exists. -/
theorem concat_vids_concatenates (fs : FS) (ts : String) (p q : List ℕ)
    (hpre : fs (ts ++ ".h264") = some p) (hafter : fs afterFile = some q)
    (hne : ts ++ ".h264" ≠ afterFile) :
    ∃ fs', concat_vids fs ts = Except.ok fs' ∧
      fs' (ts ++ ".h264") = some (p ++ q) ∧
      (fs' (ts ++ ".h264")).map List.length = some (p.length + q.length) ∧
      fs' afterFile = none := by
  have hne' : afterFile ≠ ts ++ ".h264" := fun h => hne h.symm
  have hfs1 : setFile fs (ts ++ ".h264") (some p) afterFile = some q := by
    simp only [setFile]
    rw [if_neg hne']
    exact hafter
  refine ⟨setFile (setFile (setFile fs (ts ++ ".h264") (some p)) (ts ++ ".h264")
      (some (p ++ q))) afterFile none, ?_, ?_, ?_, ?_⟩
  · simp only [concat_vids, hpre, Option.getD_some]
    rw [hfs1]
  · simp only [setFile]
    rw [if_neg hne]
    simp
  · simp only [setFile]
    rw [if_neg hne]
    simp
  · simp only [setFile]
    simp

/-- Witness for C5: on the demonstration filesystem the merged `t.h264`
holds the three bytes `[1, 2, 3]` and `after.h264` is gone. -/
theorem concat_vids_concatenates_witness :
    ∃ fs', concat_vids demoFS demoTs = Except.ok fs' ∧
      fs' (demoTs ++ ".h264") = some ([1, 2] ++ [3]) ∧
      (fs' (demoTs ++ ".h264")).map List.length = some ([1, 2].length + [3].length) ∧
      fs' afterFile = none :=
  concat_vids_concatenates demoFS demoTs [1, 2] [3] (by decide) (by decide) (by decide)

/-- C6: `convert_video` deletes the source `.h264` exactly when the
external transcoder exits zero; on non-zero exit the source is retained
and the `.mp4` output is absent, and in either case the function returns
normally (no exception, no retry — one transcoder run per call). -/
theorem convert_video_exit_code (fs : FS) (ts : String) (rc : ℕ) (content : List ℕ)
    (hin : fs (ts ++ ".h264") = some content)
    (hout : fs (ts ++ ".mp4") = none)
    (hne : ts ++ ".h264" ≠ ts ++ ".mp4") :
    (rc = 0 →
      convert_video fs ts rc (ts ++ ".h264") = none ∧
      convert_video fs ts rc (ts ++ ".mp4") = some content) ∧
    (rc ≠ 0 →
      convert_video fs ts rc (ts ++ ".h264") = some content ∧
      convert_video fs ts rc (ts ++ ".mp4") = none) := by
  have hne' : ts ++ ".mp4" ≠ ts ++ ".h264" := fun h => hne h.symm
  constructor
  · intro hrc
    subst hrc
    have hrun : runTranscoder fs (ts ++ ".h264") (ts ++ ".mp4") 0
        = (0, setFile fs (ts ++ ".mp4") (some content)) := by
      simp [runTranscoder, hin]
    have hres : convert_video fs ts 0
        = setFile (setFile fs (ts ++ ".mp4") (some content)) (ts ++ ".h264") none := by
      simp [convert_video, hrun]
    rw [hres]
    constructor
    · simp only [setFile]
      simp
    · simp only [setFile]
      rw [if_neg hne']
      simp
  · intro hrc
    have hrun : runTranscoder fs (ts ++ ".h264") (ts ++ ".mp4") rc = (rc, fs) := by
      simp only [runTranscoder, hin]
      rw [if_neg hrc]
    have hres : convert_video fs ts rc = fs := by
      simp [convert_video, hrun, hrc]
    rw [hres]
    exact ⟨hin, hout⟩

/-- Witness for C6: on the demonstration merged filesystem, exit code 1
retains `t.h264` and leaves `t.mp4` absent, while exit code 0 deletes
`t.h264` and produces `t.mp4`. -/
theorem convert_video_exit_code_witness :
    (convert_video demoMergedFS demoTs 1 (demoTs ++ ".h264") = some [7, 8] ∧
      convert_video demoMergedFS demoTs 1 (demoTs ++ ".mp4") = none) ∧
    (convert_video demoMergedFS demoTs 0 (demoTs ++ ".h264") = none ∧
      convert_video demoMergedFS demoTs 0 (demoTs ++ ".mp4") = some [7, 8]) :=
  ⟨(convert_video_exit_code demoMergedFS demoTs 1 [7, 8]
      (by decide) (by decide) (by decide)).2 (by decide),
   (convert_video_exit_code demoMergedFS demoTs 0 [7, 8]
      (by decide) (by decide) (by decide)).1 rfl⟩
